import Mathlib

/-!
# Verification of `golem/ethereum/node.py` (`NodeProcess` supervisor)

Shallow embedding of the `NodeProcess` class: binary location, version
gating, genesis initialization at construction time, `start` (argument
composition, port allocation, readiness polling) and `stop`.

External collaborators (the `devp2p` key derivation, the faucet address,
bundled file paths) are passed in as an explicit `Ext` record; the OS
(located binary, version-query output, filesystem state, subprocess exit
codes, free-port allocation, the child's open TCP ports) is an explicit
environment.
-/

namespace GolemNode

/-! ## Python truthiness helpers

`if not port:` and `if nodekey:` in the source test truthiness, not
presence: `None`, `0` and the empty string are all falsy. -/

def truthyNat : Option Nat → Bool
  | none => false
  | some n => n != 0

def truthyStr : Option String → Bool
  | none => false
  | some s => s != ""

/-! ## Version triples and the version gate

`StrictVersion` on strings captured by the pattern `Version: (\d+\.\d+\.\d+)`
compares as the lexicographic order on the numeric triple. -/

def versionLt : Nat × Nat × Nat → Nat × Nat × Nat → Bool
  | (a1, b1, c1), (a2, b2, c2) =>
    Nat.blt a1 a2 || (a1 == a2 && (Nat.blt b1 b2 || (b1 == b2 && Nat.blt c1 c2)))

def versionLe (a b : Nat × Nat × Nat) : Bool :=
  !(versionLt b a)

def MIN_GETH_VERSION : Nat × Nat × Nat := (1, 4, 5)

def MAX_GETH_VERSION : Nat × Nat × Nat := (1, 5, 999)

/-- The version check in `NodeProcess.__init__`:
`ver < self.MIN_GETH_VERSION or ver > self.MAX_GETH_VERSION` raises. -/
def versionRejected (v : Nat × Nat × Nat) : Bool :=
  versionLt v MIN_GETH_VERSION || versionLt MAX_GETH_VERSION v

/-! ## The version pattern

`re.search("Version: (\d+\.\d+\.\d+)", output)`: at each start position
the literal `Version: ` must match, followed by three maximal digit runs
separated by dots; the first position where the whole pattern matches
wins, and a position where only the literal matches is skipped. -/

def takeDigits : List Char → List Char × List Char
  | [] => ([], [])
  | c :: cs =>
    if c.isDigit then
      let (d, r) := takeDigits cs
      (c :: d, r)
    else
      ([], c :: cs)

def digitsToNat (ds : List Char) : Nat :=
  ds.foldl (fun a c => a * 10 + (c.toNat - 48)) 0

def matchTripleAt (cs : List Char) : Option (Nat × Nat × Nat) :=
  let (d1, r1) := takeDigits cs
  if d1.isEmpty then none else
  match r1 with
  | '.' :: r2 =>
    let (d2, r3) := takeDigits r2
    if d2.isEmpty then none else
    match r3 with
    | '.' :: r4 =>
      let (d3, _) := takeDigits r4
      if d3.isEmpty then none
      else some (digitsToNat d1, digitsToNat d2, digitsToNat d3)
    | _ => none
  | _ => none

def matchLiteral : List Char → List Char → Option (List Char)
  | [], rest => some rest
  | _ :: _, [] => none
  | l :: ls, c :: cs => if c = l then matchLiteral ls cs else none

def searchVersion : List Char → Option (Nat × Nat × Nat)
  | [] => none
  | c :: cs =>
    match matchLiteral ("Version: ".toList) (c :: cs) with
    | some rest =>
      match matchTripleAt rest with
      | some v => some v
      | none => searchVersion cs
    | none => searchVersion cs

def parseVersionOutput (s : String) : Option (Nat × Nat × Nat) :=
  searchVersion s.toList

/-! ## The supervisor state and its environment -/

/-- A launched child process handle (`psutil.Popen` result), annotated with
the argument vector it was launched with and whether RPC was requested. -/
structure Proc where
  args : List String
  rpc : Bool
deriving Repr, DecidableEq

/-- The mutable attributes of a `NodeProcess` object: `self.__prog`,
`self.datadir`, `self.port`, `self.__ps`, `self.rpcport`, `self.pubkey`. -/
structure NodeState where
  prog : String
  datadir : String
  port : Option Nat
  ps : Option Proc
  rpcport : Option Nat
  pubkey : Option String
deriving Repr, DecidableEq

/-- External collaborators: `devp2p.crypto.privtopub`,
`Faucet.ADDR.encode('hex')`, and the two bundled file paths resolved
relative to the module's own location. -/
structure Ext where
  privtopub : String → String
  faucetAddrHex : String
  miningScript : String
  genesisFile : String

/-- Construction-time environment: result of `find_program('geth')`, the
stdout of `geth version`, the filesystem state of the requested data
directory, and the exit code of the `geth init` subprocess. -/
structure Env where
  progFound : Option String
  versionOutput : String
  datadirExists : Bool
  datadirIsDir : Bool
  initExitCode : Nat
deriving Repr, DecidableEq

/-- Failure conditions of `NodeProcess.__init__`, in the order the source
checks them. -/
inductive GethError where
  | binaryNotFound
  | versionParse
  | incompatibleVersion
  | notADirectory
  | genesisInitFailed
deriving Repr, DecidableEq

/-- `NodeProcess.__init__(nodes, datadir)`. Returns the constructed state
(or the error that aborted construction) together with the chronological
list of subprocess invocations it performed. `os.makedirs` is run when the
directory does not exist, so the `isdir` check can only fail for a
pre-existing non-directory path. -/
def construct (ext : Ext) (env : Env) (datadir : String) :
    Except GethError NodeState × List (List String) :=
  match env.progFound with
  | none => (.error .binaryNotFound, [])
  | some prog =>
    let calls0 := [[prog, "version"]]
    match parseVersionOutput env.versionOutput with
    | none => (.error .versionParse, calls0)
    | some v =>
      if versionRejected v then
        (.error .incompatibleVersion, calls0)
      else if env.datadirExists && !env.datadirIsDir then
        (.error .notADirectory, calls0)
      else
        let calls1 := calls0 ++ [[prog, "--datadir", datadir, "init", ext.genesisFile]]
        if env.initExitCode != 0 then
          (.error .genesisInitFailed, calls1)
        else
          (.ok { prog := prog, datadir := datadir, port := none,
                 ps := none, rpcport := none, pubkey := none }, calls1)

/-- `NodeProcess.is_running`: `self.__ps is not None`. -/
def is_running (s : NodeState) : Bool :=
  s.ps.isSome

/-! ## `start`: argument composition and launch -/

def hexDigitChar (n : Nat) : Char :=
  if n < 10 then Char.ofNat (48 + n) else Char.ofNat (87 + n)

/-- Python 2 `str.encode('hex')`: each byte as two lowercase hex digits. -/
def hexEncode (s : String) : String :=
  String.mk (s.toUTF8.toList.foldr
    (fun b acc => hexDigitChar (b.toNat / 16) :: hexDigitChar (b.toNat % 16) :: acc) [])

/-- The argument vector composed by `NodeProcess.start`, in source order:
the fixed flags, then the RPC block if `rpc`, then the node-key block if
`nodekey` is truthy, then the mining block if `mining`. -/
def startArgs (ext : Ext) (prog datadir : String) (port : Nat) (rpc : Bool)
    (rpcport : Nat) (nodekey : Option String) (mining : Bool) : List String :=
  [prog,
   "--datadir", datadir,
   "--networkid", "9",
   "--port", toString port,
   "--nodiscover",
   "--ipcdisable",
   "--gasprice", "0",
   "--verbosity", "3"]
  ++ (if rpc then ["--rpc", "--rpcport", toString rpcport] else [])
  ++ (if truthyStr nodekey then
        ["--nodekeyhex", hexEncode (nodekey.getD "")] else [])
  ++ (if mining then
        ["--etherbase", ext.faucetAddrHex, "js", ext.miningScript] else [])

/-- `NodeProcess.start(rpc, mining, nodekey, port)` up to the launch of the
child (the readiness loop that follows is `pollBreak` below and mutates no
state). `freshPort` and `freshRpc` are the values `find_free_net_port`
would return for the (up to two) allocations this call performs. Returns
the new state, the argument vector of a child launched by this call
(`none` when no launch happened), and whether the readiness loop was
entered. `if self.__ps: return` makes the call a no-op when running;
`if not port:` tests truthiness, so an explicit port `0` is replaced by a
fresh allocation. -/
def start (ext : Ext) (s : NodeState) (rpc mining : Bool)
    (nodekey : Option String) (port : Option Nat) (freshPort freshRpc : Nat) :
    NodeState × Option (List String) × Bool :=
  if s.ps.isSome then
    (s, none, false)
  else
    let p := if truthyNat port then port.getD 0 else freshPort
    let rpcport' := if rpc then some freshRpc else s.rpcport
    let pubkey' :=
      if truthyStr nodekey then some (ext.privtopub (nodekey.getD ""))
      else s.pubkey
    let args := startArgs ext s.prog s.datadir p rpc (rpcport'.getD 0) nodekey mining
    ({ s with port := some p, rpcport := rpcport', pubkey := pubkey',
              ps := some ⟨args, rpc⟩ },
     some args, true)

/-! ## The readiness-polling loop

`while True: sleep(0.01); if not self.rpcport: break; if self.rpcport in
laddr-ports: break`. One iteration = one sleep followed by the two break
checks; `conns n` is the child's open TCP local ports as observed at the
`n`-th iteration (0-based). -/

/-- Whether the `n`-th loop iteration breaks the loop. -/
def pollBreak (rpcport : Option Nat) (connPorts : List Nat) : Bool :=
  if !truthyNat rpcport then true
  else connPorts.contains (rpcport.getD 0)

/-- The loop terminates at the `n`-th iteration: that iteration breaks and
no earlier one did. -/
def pollTerminatesAt (rpcport : Option Nat) (conns : Nat → List Nat)
    (n : Nat) : Prop :=
  pollBreak rpcport (conns n) = true ∧
  ∀ m, m < n → pollBreak rpcport (conns m) = false

/-! ## `stop` -/

/-- The only exception the `stop` body can see: `psutil.NoSuchProcess`
raised by `terminate()`/`wait()` when the child already disappeared. -/
inductive PyErr where
  | noSuchProcess
deriving Repr, DecidableEq

/-- `self.__ps.terminate(); self.__ps.wait()`: raises `NoSuchProcess` when
the process is already gone. -/
def terminateAndWait (gone : Bool) : Except PyErr Unit :=
  if gone then .error .noSuchProcess else .ok ()

/-- `NodeProcess.stop()`, with the exception channel explicit. `gone` says
whether the child already disappeared. Returns the new state and whether
the already-gone warning was logged. The `try`/`except psutil.NoSuchProcess`
catches the only possible exception, and `self.__ps = None`,
`self.rpcport = None` run unconditionally after it. -/
def stop (gone : Bool) (s : NodeState) : Except PyErr (NodeState × Bool) :=
  match s.ps with
  | some _ =>
    match terminateAndWait gone with
    | .ok _ => .ok ({ s with ps := none, rpcport := none }, false)
    | .error .noSuchProcess =>
      .ok ({ s with ps := none, rpcport := none }, true)
  | none => .ok (s, false)

/-- The value `stop` always returns (`stop` never raises; the C2 theorem
proves `stop gone s = .ok (stopResult gone s)`). -/
def stopResult (gone : Bool) (s : NodeState) : NodeState × Bool :=
  match s.ps with
  | some _ => ({ s with ps := none, rpcport := none }, gone)
  | none => (s, false)

/-! ## Traces of supervisor operations -/

/-- One caller-visible operation on a constructed supervisor, together
with the environment it runs in (allocator results, whether the child was
already gone at stop time). -/
inductive Op where
  | startOp (rpc mining : Bool) (nodekey : Option String) (port : Option Nat)
      (freshPort freshRpc : Nat)
  | stopOp (gone : Bool)

def step (ext : Ext) (s : NodeState) : Op → NodeState
  | .startOp rpc mining nodekey port freshPort freshRpc =>
    (start ext s rpc mining nodekey port freshPort freshRpc).1
  | .stopOp gone => (stopResult gone s).1

def runOps (ext : Ext) (s : NodeState) : List Op → NodeState
  | [] => s
  | op :: ops => runOps ext (step ext s op) ops

/-- The C4 invariant: when not running `rpcport` is unset; when running it
is set exactly when the current run requested RPC. -/
def rpcInv (s : NodeState) : Prop :=
  match s.ps with
  | none => s.rpcport = none
  | some p => s.rpcport.isSome = p.rpc

end GolemNode

namespace GolemNode

/-- The accepted range, as a Bool on version triples. -/
lemma versionRejected_false_iff (v : Nat × Nat × Nat) :
    versionRejected v = false ↔
      (versionLe MIN_GETH_VERSION v = true ∧
       versionLe v MAX_GETH_VERSION = true) := by
  unfold versionRejected versionLe
  cases hx : versionLt v MIN_GETH_VERSION <;>
    cases hy : versionLt MAX_GETH_VERSION v <;> simp

/-- Once the binary is located and its version parses, the constructor's
result is determined by the version gate, the directory checks and the
init exit code, in that order. -/
lemma construct_fst (ext : Ext) (env : Env) (d prog : String)
    (v : Nat × Nat × Nat)
    (h1 : env.progFound = some prog)
    (h2 : parseVersionOutput env.versionOutput = some v) :
    (construct ext env d).1 =
      if versionRejected v then .error .incompatibleVersion
      else if env.datadirExists && !env.datadirIsDir then
        .error .notADirectory
      else if env.initExitCode != 0 then .error .genesisInitFailed
      else .ok ⟨prog, d, none, none, none, none⟩ := by
  unfold construct
  rw [h1]
  simp only [h2]
  split
  · rfl
  · split
    · rfl
    · split <;> rfl

/-- Claim C1: for every parsed version triple `v`, construction accepts the
located binary iff `MIN_GETH_VERSION (1,4,5) ≤ v ≤ MAX_GETH_VERSION
(1,5,999)`, both bounds inclusive; outside this range construction fails
with the incompatible-version error. A binary reporting `1.5.0` is
accepted, one reporting `1.6.0` is rejected. -/
theorem version_gate_inclusive (ext : Ext) (env : Env) (d prog : String)
    (v : Nat × Nat × Nat)
    (h1 : env.progFound = some prog)
    (h2 : parseVersionOutput env.versionOutput = some v) :
    ((construct ext env d).1 = .error .incompatibleVersion ↔
      ¬(versionLe MIN_GETH_VERSION v = true ∧
        versionLe v MAX_GETH_VERSION = true))
    ∧ ((construct ext
          ⟨some "geth", "Version: 1.5.0", true, true, 0⟩ d).1).isOk = true
    ∧ (construct ext
          ⟨some "geth", "Version: 1.6.0", true, true, 0⟩ d).1 =
        .error .incompatibleVersion := by
  refine ⟨?_, rfl, rfl⟩
  rw [construct_fst ext env d prog v h1 h2]
  by_cases hrej : versionRejected v = true
  · simp only [hrej, if_true]
    constructor
    · intro _ hin
      rw [← versionRejected_false_iff] at hin
      simp [hrej] at hin
    · intro _
      trivial
  · have hin := (versionRejected_false_iff v).mp (Bool.not_eq_true _ ▸ hrej)
    simp only [Bool.not_eq_true] at hrej
    simp only [hrej, if_false, Bool.false_eq_true]
    constructor
    · intro hc
      split at hc
      · exact absurd hc (by simp)
      · split at hc <;> exact absurd hc (by simp)
    · intro hout
      exact absurd hin hout

/-- Claim C2: `stop` never raises (it always returns `.ok`, and equals
`stopResult`); called twice in a row it raises no error and `is_running`
is false after each call; with nothing running it is a silent no-op; a
process already gone at termination time is logged, not propagated; and
the process handle and `rpcport` are cleared whenever a process existed. -/
theorem stop_never_raises (g1 g2 : Bool) (s : NodeState) :
    stop g1 s = .ok (stopResult g1 s)
    ∧ is_running (stopResult g1 s).1 = false
    ∧ stopResult g2 (stopResult g1 s).1 = ((stopResult g1 s).1, false)
    ∧ is_running (stopResult g2 (stopResult g1 s).1).1 = false
    ∧ (s.ps = none → stopResult g1 s = (s, false))
    ∧ (∀ p, s.ps = some p → g1 = true → (stopResult g1 s).2 = true)
    ∧ (∀ p, s.ps = some p →
        (stopResult g1 s).1.ps = none ∧ (stopResult g1 s).1.rpcport = none) := by
  cases hps : s.ps <;> cases g1 <;>
    simp [stop, stopResult, is_running, terminateAndWait, hps]

/-- Witness for C2: stopping a running supervisor whose child already
disappeared logs the warning and clears the handle and `rpcport`. -/
theorem stop_never_raises_witness :
    (stopResult true
        ⟨"geth", "dd", some 30303, some ⟨[], true⟩, some 8545, none⟩).2 = true
    ∧ (stopResult true
        ⟨"geth", "dd", some 30303, some ⟨[], true⟩, some 8545, none⟩).1.ps = none
    ∧ (stopResult true
        ⟨"geth", "dd", some 30303, some ⟨[], true⟩, some 8545, none⟩).1.rpcport
        = none := by
  have h := stop_never_raises true false
    ⟨"geth", "dd", some 30303, some ⟨[], true⟩, some 8545, none⟩
  exact ⟨h.2.2.2.2.2.1 ⟨[], true⟩ rfl rfl,
         (h.2.2.2.2.2.2 ⟨[], true⟩ rfl).1,
         (h.2.2.2.2.2.2 ⟨[], true⟩ rfl).2⟩

/-- Claim C3: `start` called while a process is already running is a
complete no-op: the state is unchanged, no child is launched, and the
readiness loop is never entered (no polling delay), with no error. -/
theorem start_idempotent (ext : Ext) (s : NodeState) (rpc mining : Bool)
    (nodekey : Option String) (port : Option Nat) (fp fr : Nat)
    (h : s.ps.isSome = true) :
    start ext s rpc mining nodekey port fp fr = (s, none, false) := by
  simp [start, h]

/-- Witness for C3 on a concrete running supervisor. -/
theorem start_idempotent_witness :
    start ⟨id, "fa", "ms", "gf"⟩
        ⟨"geth", "dd", some 30303, some ⟨["geth"], false⟩, none, none⟩
        true false none none 1 2 =
      (⟨"geth", "dd", some 30303, some ⟨["geth"], false⟩, none, none⟩,
       none, false) :=
  start_idempotent ⟨id, "fa", "ms", "gf"⟩
    ⟨"geth", "dd", some 30303, some ⟨["geth"], false⟩, none, none⟩
    true false none none 1 2 rfl

/-- Claim C7: when not running, `start` launches a child whose argument
vector is exactly the fixed flags (`--networkid 9`, `--nodiscover`,
`--ipcdisable`, `--gasprice 0`, `--verbosity 3`, the data directory, the
peer port), followed by the RPC flags with the freshly allocated RPC port
exactly when `rpc` is set, the hex-encoded `--nodekeyhex` flag exactly
when a node key is given (with the derived public key stored), and the
mining flags (faucet beneficiary address and bundled script) exactly when
`mining` is set. -/
theorem start_args_composition (ext : Ext) (s : NodeState) (rpc mining : Bool)
    (nodekey : Option String) (port : Option Nat) (fp fr : Nat)
    (h : s.ps = none) :
    (start ext s rpc mining nodekey port fp fr).2.1 =
      some ([s.prog,
             "--datadir", s.datadir,
             "--networkid", "9",
             "--port", toString (if truthyNat port then port.getD 0 else fp),
             "--nodiscover", "--ipcdisable",
             "--gasprice", "0",
             "--verbosity", "3"]
        ++ (if rpc then ["--rpc", "--rpcport", toString fr] else [])
        ++ (if truthyStr nodekey then
              ["--nodekeyhex", hexEncode (nodekey.getD "")] else [])
        ++ (if mining then
              ["--etherbase", ext.faucetAddrHex, "js", ext.miningScript]
            else []))
    ∧ (start ext s rpc mining nodekey port fp fr).1.pubkey =
        (if truthyStr nodekey then some (ext.privtopub (nodekey.getD ""))
         else s.pubkey) := by
  cases rpc <;> constructor <;> simp [start, startArgs, h]

/-- Witness for C7: a fresh supervisor started with RPC, mining and a node
key composes the full argument vector. -/
theorem start_args_composition_witness :
    (start ⟨id, "fa", "ms", "gf"⟩ ⟨"geth", "dd", none, none, none, none⟩
        true true (some "k") none 7 8).2.1 =
      some (["geth",
             "--datadir", "dd",
             "--networkid", "9",
             "--port",
             toString (if truthyNat (none : Option Nat)
                       then (none : Option Nat).getD 0 else 7),
             "--nodiscover", "--ipcdisable",
             "--gasprice", "0",
             "--verbosity", "3"]
        ++ (if true then ["--rpc", "--rpcport", toString 8] else [])
        ++ (if truthyStr (some "k") then
              ["--nodekeyhex", hexEncode ((some "k").getD "")] else [])
        ++ (if true then ["--etherbase", "fa", "js", "ms"] else []))
    ∧ (start ⟨id, "fa", "ms", "gf"⟩ ⟨"geth", "dd", none, none, none, none⟩
        true true (some "k") none 7 8).1.pubkey =
        (if truthyStr (some "k") then some (id "k") else none) :=
  start_args_composition ⟨id, "fa", "ms", "gf"⟩
    ⟨"geth", "dd", none, none, none, none⟩ true true (some "k") none 7 8 rfl

/-- Claim C9: `start` with an explicit peer port of `0` while not running
treats the port as absent (`if not port:` tests truthiness): the stored
peer port becomes the freshly allocated one, and the child is launched
with the allocated port, not with `0`. -/
theorem explicit_port_zero_reallocated (ext : Ext) (s : NodeState)
    (rpc mining : Bool) (k : Option String) (fp fr : Nat)
    (h : s.ps = none) :
    (start ext s rpc mining k (some 0) fp fr).1.port = some fp
    ∧ (start ext s rpc mining k (some 0) fp fr).2.1 =
        some (startArgs ext s.prog s.datadir fp rpc
          ((if rpc then some fr else s.rpcport).getD 0) k mining) := by
  constructor <;> simp [start, h, truthyNat]

/-- Witness for C9: explicit port 0 is replaced by the allocated port 31000. -/
theorem explicit_port_zero_reallocated_witness :
    (start ⟨id, "fa", "ms", "gf"⟩ ⟨"geth", "dd", none, none, none, none⟩
        false false none (some 0) 31000 8).1.port = some 31000 :=
  (explicit_port_zero_reallocated ⟨id, "fa", "ms", "gf"⟩
    ⟨"geth", "dd", none, none, none, none⟩ false false none 31000 8 rfl).1

/-- Claim C10: `stop` modifies only the process handle and `rpcport`: the
binary path, data directory, peer port and stored public key are
unchanged by every call, and after stopping a started supervisor the peer
port still holds the value the most recent `start` assigned. -/
theorem stop_frame (g : Bool) (s s2 : NodeState) (l : Bool)
    (h : stop g s = .ok (s2, l)) :
    s2.prog = s.prog ∧ s2.datadir = s.datadir ∧ s2.port = s.port
    ∧ s2.pubkey = s.pubkey
    ∧ (∀ (ext : Ext) (s3 : NodeState) (r m : Bool) (k : Option String)
         (p : Option Nat) (fp fr : Nat) (g2 : Bool), s3.ps = none →
        (stopResult g2 (start ext s3 r m k p fp fr).1).1.port =
          some (if truthyNat p then p.getD 0 else fp)) := by
  refine ⟨?f1, ?f2, ?f3, ?f4, ?f5⟩
  case f5 =>
    intro ext s3 r m k p fp fr g2 h3
    simp [start, stopResult, h3]
  all_goals
    cases hps : s.ps <;> cases g <;>
      simp [stop, terminateAndWait, hps] at h <;>
        rw [← h.1]

/-- Witness for C10 on a concrete running supervisor with a stored key. -/
theorem stop_frame_witness :
    (⟨"geth", "dd", some 30303, none, none, some "pk"⟩ : NodeState).port =
      (⟨"geth", "dd", some 30303, some ⟨[], true⟩, some 8545, some "pk"⟩ :
        NodeState).port
    ∧ (stopResult false
        (start ⟨id, "fa", "ms", "gf"⟩ ⟨"geth", "dd", none, none, none, none⟩
          true false none none 7 8).1).1.port =
        some (if truthyNat (none : Option Nat)
              then (none : Option Nat).getD 0 else 7) := by
  have h := stop_frame true
    ⟨"geth", "dd", some 30303, some ⟨[], true⟩, some 8545, some "pk"⟩
    ⟨"geth", "dd", some 30303, none, none, some "pk"⟩ true rfl
  exact ⟨h.2.2.1,
         h.2.2.2.2 ⟨id, "fa", "ms", "gf"⟩
           ⟨"geth", "dd", none, none, none, none⟩ true false none none 7 8
           false rfl⟩

/-- Witness for C1 at a concrete environment reporting version 1.5.0. -/
theorem version_gate_inclusive_witness :
    ((construct ⟨id, "", "", "g.json"⟩
        ⟨some "geth", "Version: 1.5.0", true, true, 0⟩ "dd").1 =
          .error .incompatibleVersion ↔
      ¬(versionLe MIN_GETH_VERSION (1, 5, 0) = true ∧
        versionLe (1, 5, 0) MAX_GETH_VERSION = true)) := by
  exact (version_gate_inclusive ⟨id, "", "", "g.json"⟩
    ⟨some "geth", "Version: 1.5.0", true, true, 0⟩ "dd" "geth" (1, 5, 0)
    rfl rfl).1

/-! ## The rpcport invariant (C4) -/

lemma rpcInv_step (ext : Ext) (s : NodeState) (op : Op) (h : rpcInv s) :
    rpcInv (step ext s op) := by
  cases op with
  | startOp rpc mining nodekey port fp fr =>
    cases hps : s.ps with
    | some p =>
      simpa [step, start, hps] using h
    | none =>
      have hr : s.rpcport = none := by
        unfold rpcInv at h
        rw [hps] at h
        exact h
      cases rpc <;> simp [step, start, hps, rpcInv, hr]
  | stopOp gone =>
    cases hps : s.ps with
    | some p => simp [step, stopResult, hps, rpcInv]
    | none =>
      have hr : s.rpcport = none := by
        unfold rpcInv at h
        rw [hps] at h
        exact h
      simp [step, stopResult, hps, rpcInv, hr]

lemma rpcInv_runOps (ext : Ext) (s : NodeState) (ops : List Op)
    (h : rpcInv s) : rpcInv (runOps ext s ops) := by
  induction ops generalizing s with
  | nil => exact h
  | cons op ops ih => exact ih _ (rpcInv_step ext s op h)

/-- Claim C4: `rpcport` is set iff RPC was requested for the current run.
A freshly constructed supervisor satisfies the invariant, every start/stop
sequence preserves it, a successful `start` with `rpc = true` sets
`rpcport` to the freshly allocated RPC port, a `start` with `rpc = false`
leaves it unset, and `stop` clears it. -/
theorem rpcport_iff_requested (ext : Ext) (s : NodeState) (ops : List Op)
    (h : rpcInv s) :
    rpcInv (runOps ext s ops)
    ∧ (∀ (ext2 : Ext) (env : Env) (d : String) (st : NodeState),
        (construct ext2 env d).1 = .ok st → rpcInv st)
    ∧ (∀ (m : Bool) (k : Option String) (p : Option Nat) (fp fr : Nat),
        s.ps = none → (start ext s true m k p fp fr).1.rpcport = some fr)
    ∧ (∀ (m : Bool) (k : Option String) (p : Option Nat) (fp fr : Nat),
        s.ps = none → (start ext s false m k p fp fr).1.rpcport = none)
    ∧ (∀ (g : Bool) (pr : Proc), s.ps = some pr →
        (stopResult g s).1.rpcport = none) := by
  refine ⟨rpcInv_runOps ext s ops h, ?c2, ?c3, ?c4, ?c5⟩
  case c2 =>
    intro ext2 env d st hok
    unfold construct at hok
    cases hpf : env.progFound with
    | none => rw [hpf] at hok; exact absurd hok (by simp)
    | some prog =>
      rw [hpf] at hok
      cases hv : parseVersionOutput env.versionOutput with
      | none => rw [hv] at hok; exact absurd hok (by simp)
      | some v =>
        rw [hv] at hok
        simp only at hok
        split at hok
        · exact absurd hok (by simp)
        · split at hok
          · exact absurd hok (by simp)
          · split at hok
            · exact absurd hok (by simp)
            · simp only [Except.ok.injEq] at hok
              rw [← hok]
              simp [rpcInv]
  case c3 =>
    intro m k p fp fr hps
    simp [start, hps]
  case c4 =>
    intro m k p fp fr hps
    have hr : s.rpcport = none := by
      unfold rpcInv at h
      rw [hps] at h
      exact h
    simp [start, hps, hr]
  case c5 =>
    intro g pr hps
    simp [stopResult, hps]

/-- Witness for C4: from a freshly constructed state, starting with RPC
yields the allocated RPC port and the invariant holds after a
start/stop/start-without-RPC trace. -/
theorem rpcport_iff_requested_witness :
    rpcInv (runOps ⟨id, "fa", "ms", "gf"⟩
      ⟨"geth", "dd", none, none, none, none⟩
      [.startOp true false none none 1 2, .stopOp false,
       .startOp false false none none 3 4])
    ∧ (start ⟨id, "fa", "ms", "gf"⟩ ⟨"geth", "dd", none, none, none, none⟩
        true false none none 1 2).1.rpcport = some 2 := by
  have h := rpcport_iff_requested ⟨id, "fa", "ms", "gf"⟩
    ⟨"geth", "dd", none, none, none, none⟩
    [.startOp true false none none 1 2, .stopOp false,
     .startOp false false none none 3 4] rfl
  exact ⟨h.1, h.2.2.1 false none none 1 2 rfl⟩

/-! ## Readiness polling (C5) -/

lemma pollBreak_none (c : List Nat) : pollBreak none c = true := rfl

lemma pollBreak_some (p : Nat) (c : List Nat) (hp : p ≠ 0) :
    pollBreak (some p) c = c.contains p := by
  simp [pollBreak, truthyNat, hp]

/-- Claim C5: the readiness loop terminates at its first iteration, for
every connection oracle, when RPC was not requested (`rpcport` unset);
when RPC was requested it terminates exactly when the allocated port first
appears among the child's open TCP local ports; and if the port never
appears the loop terminates at no iteration, so `start` never returns.
After a `start` without RPC on a fresh supervisor the loop is in the
degenerate immediate-termination case. -/
theorem poll_loop_termination :
    (∀ conns : Nat → List Nat, pollTerminatesAt none conns 0)
    ∧ (∀ (p : Nat) (conns : Nat → List Nat) (n : Nat), p ≠ 0 →
        (pollTerminatesAt (some p) conns n ↔
          ((conns n).contains p = true ∧
           ∀ m, m < n → (conns m).contains p = false)))
    ∧ (∀ (p : Nat) (conns : Nat → List Nat), p ≠ 0 →
        (∀ n, (conns n).contains p = false) →
        ∀ n, ¬ pollTerminatesAt (some p) conns n)
    ∧ (∀ (ext : Ext) (s : NodeState) (m : Bool) (k : Option String)
         (pt : Option Nat) (fp fr : Nat) (conns : Nat → List Nat),
        s.ps = none → s.rpcport = none →
        pollTerminatesAt ((start ext s false m k pt fp fr).1.rpcport)
          conns 0) := by
  refine ⟨?c1, ?c2, ?c3, ?c4⟩
  case c1 =>
    intro conns
    exact ⟨pollBreak_none _, fun m hm => absurd hm (Nat.not_lt_zero m)⟩
  case c2 =>
    intro p conns n hp
    unfold pollTerminatesAt
    rw [pollBreak_some p _ hp]
    constructor
    · intro ⟨hb, hearlier⟩
      exact ⟨hb, fun m hm => by
        have := hearlier m hm
        rwa [pollBreak_some p _ hp] at this⟩
    · intro ⟨hb, hearlier⟩
      exact ⟨hb, fun m hm => by rw [pollBreak_some p _ hp]; exact hearlier m hm⟩
  case c3 =>
    intro p conns hp hnever n hterm
    obtain ⟨hb, _⟩ := hterm
    rw [pollBreak_some p _ hp, hnever n] at hb
    exact Bool.noConfusion hb
  case c4 =>
    intro ext s m k pt fp fr conns hps hr
    have : (start ext s false m k pt fp fr).1.rpcport = none := by
      simp [start, hps, hr]
    rw [this]
    exact ⟨pollBreak_none _, fun m hm => absurd hm (Nat.not_lt_zero m)⟩

/-- Witness for C5: a child that never opens port 8545 never lets the loop
terminate, and with RPC disabled the loop terminates at iteration 0. -/
theorem poll_loop_termination_witness :
    ¬ pollTerminatesAt (some 8545) (fun _ => []) 0
    ∧ pollTerminatesAt none (fun _ => [30303]) 0 := by
  have h := poll_loop_termination
  exact ⟨h.2.2.1 8545 (fun _ => []) (by decide) (fun _ => rfl) 0,
         h.1 (fun _ => [30303])⟩

/-! ## Genesis initialization (C6) and construction-time failures (C8) -/

/-- Claim C6: the `geth init` subcommand against the bundled genesis file
is invoked on every construction that passes the binary/version/directory
checks — regardless of whether the data directory already existed — and a
non-zero exit of that subcommand aborts construction with the
genesis-init error. -/
theorem genesis_init_every_construction (ext : Ext) (env : Env)
    (d prog : String) (v : Nat × Nat × Nat)
    (h1 : env.progFound = some prog)
    (h2 : parseVersionOutput env.versionOutput = some v)
    (h3 : versionRejected v = false)
    (h4 : (env.datadirExists && !env.datadirIsDir) = false) :
    [prog, "--datadir", d, "init", ext.genesisFile] ∈ (construct ext env d).2
    ∧ (env.initExitCode ≠ 0 →
        (construct ext env d).1 = .error .genesisInitFailed) := by
  unfold construct
  rw [h1]
  simp only [h2, h3, h4]
  by_cases hi : env.initExitCode = 0 <;> simp [hi]

/-- Witness for C6: a pre-existing data directory still gets the init
call, and exit code 1 aborts construction. -/
theorem genesis_init_every_construction_witness :
    ["geth", "--datadir", "dd", "init", "g.json"] ∈
      (construct ⟨id, "fa", "ms", "g.json"⟩
        ⟨some "geth", "Version: 1.5.0", true, true, 1⟩ "dd").2
    ∧ (construct ⟨id, "fa", "ms", "g.json"⟩
        ⟨some "geth", "Version: 1.5.0", true, true, 1⟩ "dd").1 =
        .error .genesisInitFailed := by
  have h := genesis_init_every_construction ⟨id, "fa", "ms", "g.json"⟩
    ⟨some "geth", "Version: 1.5.0", true, true, 1⟩ "dd" "geth" (1, 5, 0)
    rfl rfl rfl rfl
  exact ⟨h.1, h.2 (by decide)⟩

/-- Claim C8: construction fails before any supervised child is ever
launched: with the binary-not-found error (and no subprocess invoked at
all) when no executable matches, and with the version-parse error (after
only the version query) when the fixed pattern does not match the
version output; both abort object creation. -/
theorem construction_fails_before_launch (ext : Ext) (env : Env)
    (d : String) :
    (env.progFound = none →
      construct ext env d = (.error .binaryNotFound, []))
    ∧ (∀ prog, env.progFound = some prog →
        parseVersionOutput env.versionOutput = none →
        construct ext env d = (.error .versionParse, [[prog, "version"]])) := by
  constructor
  · intro h
    simp [construct, h]
  · intro prog h hp
    simp [construct, h, hp]

/-- Witness for C8: a host without the binary, and one whose binary prints
no parsable version. -/
theorem construction_fails_before_launch_witness :
    construct ⟨id, "fa", "ms", "gf"⟩ ⟨none, "", true, true, 0⟩ "dd" =
      (.error .binaryNotFound, [])
    ∧ construct ⟨id, "fa", "ms", "gf"⟩
        ⟨some "geth", "no version here", true, true, 0⟩ "dd" =
        (.error .versionParse, [["geth", "version"]]) := by
  exact ⟨(construction_fails_before_launch ⟨id, "fa", "ms", "gf"⟩
            ⟨none, "", true, true, 0⟩ "dd").1 rfl,
         (construction_fails_before_launch ⟨id, "fa", "ms", "gf"⟩
            ⟨some "geth", "no version here", true, true, 0⟩ "dd").2
           "geth" rfl rfl⟩

end GolemNode
